import Mathlib

/-!
# Verification of the HRV analysis core

A shallow embedding of `src/backend/hrv_analysis.py` (the signal-processing
core of the CapstoneHRV repository) together with proofs of its specified
properties.

Modelling conventions:
* Numeric samples (times in seconds, voltages in mV) are rationals `ℚ`;
  the Python code computes with exact values except for float rounding,
  which is outside the scope of this development.
* `numpy` reductions that can produce NaN (mean of an empty array, standard
  deviation with `ddof` at least the sample count) are modelled with
  `Option ℚ`, where `none` stands for NaN.  All other operations in the
  pipeline (subtraction, squaring) map non-NaN values to non-NaN values,
  so NaN can only enter through those two reductions.
* `np.std(_, ddof := 1)` and `np.sqrt (np.mean (np.square (np.diff _)))`
  each end in a square root of a nonnegative quantity.  Since `Real.sqrt`
  is strictly monotone and injective on nonnegative arguments, the record
  below stores the radicands (`SDNN_sq`, `RMSSD_sq`); the reported SDNN and
  RMSSD are exactly the square roots of those fields, with NaN (`none`)
  propagated unchanged by `np.sqrt`.
* Python slicing `xs[s:]` (which never raises, also for out-of-range or
  negative `s`) is modelled by `pySliceFrom`.
* In-range Python indexing `xs[i]` is modelled by `List.getD xs i 0`; every
  index the code uses is in range whenever the two data-frame columns have
  equal length, which a pandas data frame guarantees.
-/

/-- One row of the returned RR-interval table: the Python dict
`{"timestamp": float(r_peaks_time[i]), "rr": float(rr_intervals[i])}`. -/
structure RRRow where
  timestamp : ℚ
  rr : ℚ
deriving Repr, DecidableEq

/-- The returned HRV metrics record.  `MeanRR` is `np.mean` of the RR
intervals; `SDNN_sq` is the radicand of `np.std(rr, ddof := 1)` and
`RMSSD_sq` the radicand of `np.sqrt(np.mean(np.square(np.diff rr)))`, i.e.
SDNN and RMSSD are the square roots of these fields.  `none` stands for
NaN. -/
structure HRVMetrics where
  MeanRR : Option ℚ
  SDNN_sq : Option ℚ
  RMSSD_sq : Option ℚ
deriving Repr, DecidableEq

/-- Python's `xs[s:]` slice: for `0 ≤ s` drop the first `s` elements
(yielding `[]` when `s` exceeds the length); for `s < 0` the start is
counted from the end, clamped at the front of the list. -/
def pySliceFrom {α : Type} (s : ℤ) (xs : List α) : List α :=
  if 0 ≤ s then xs.drop s.toNat
  else xs.drop ((xs.length : ℤ) + s).toNat

/-- `np.diff`: successive differences `xs[i+1] - xs[i]`, one fewer entry
than `xs`. -/
def npDiff (xs : List ℚ) : List ℚ :=
  List.zipWith (fun a b => b - a) xs xs.tail

/-- `np.mean`: the arithmetic mean, NaN (`none`) on an empty array. -/
def npMean (xs : List ℚ) : Option ℚ :=
  if xs.length = 0 then none else some (xs.sum / (xs.length : ℚ))

/-- The radicand of `np.std(xs, ddof)`: the sum of squared deviations from
the mean divided by `length - ddof`.  When `length ≤ ddof` the float
computation is `0/0` (for `ddof = 1`, `length = 1`) or involves the NaN
mean of an empty array, so the result is NaN (`none`). -/
def npStdSq (ddof : ℕ) (xs : List ℚ) : Option ℚ :=
  if xs.length ≤ ddof then none
  else some ((xs.map (fun x => (x - xs.sum / (xs.length : ℚ)) ^ 2)).sum /
      ((xs.length : ℚ) - (ddof : ℚ)))

/-- `detect_peaks` from `hrv_analysis.py`:
`[i for i in range(1, len(v) - 1) if v[i-1] < v[i] > v[i+1]]`. -/
def detect_peaks (voltage_data : List ℚ) : List ℕ :=
  (List.range' 1 (voltage_data.length - 1 - 1)).filter fun i =>
    decide (voltage_data.getD (i - 1) 0 < voltage_data.getD i 0 ∧
      voltage_data.getD i 0 > voltage_data.getD (i + 1) 0)

/-- The local `r_peaks_time` of `analyze_hrv`: the slice
`times[start_index:]` evaluated at the peak indices of
`voltages[start_index:]`. -/
def r_peaks_time (times voltages : List ℚ) (start_index : ℤ) : List ℚ :=
  (detect_peaks (pySliceFrom start_index voltages)).map fun i =>
    (pySliceFrom start_index times).getD i 0

/-- `analyze_hrv` from `hrv_analysis.py`, with the data frame's two columns
passed as `times` and `voltages`.  `Except.error` models the raised
`ValueError`. -/
def analyze_hrv (times voltages : List ℚ) (start_index : ℤ) :
    Except String (HRVMetrics × List RRRow) :=
  let r_peaks := r_peaks_time times voltages start_index
  if r_peaks.length < 2 then
    .error "Not enough R-peaks to compute HRV."
  else
    let rr_intervals := npDiff r_peaks
    .ok
      ({ MeanRR := npMean rr_intervals,
         SDNN_sq := npStdSq 1 rr_intervals,
         RMSSD_sq := npMean ((npDiff rr_intervals).map fun d => d ^ 2) },
       (List.range rr_intervals.length).map fun i =>
         { timestamp := r_peaks.getD i 0, rr := rr_intervals.getD i 0 })

/-! ## Spec-side definitions (for the metric-formula refinement claim)

These follow the spec's wording for the three statistics, independently of
the `numpy`-shaped code above. -/

/-- Spec wording: the arithmetic mean of a sequence. -/
def spec_mean (xs : List ℚ) : ℚ := xs.sum / (xs.length : ℚ)

/-- Spec wording: sample variance with Bessel's correction — the sum of
squared deviations from the mean divided by `N - 1`.  (The sample standard
deviation of the spec is its square root.) -/
def spec_sampleVariance (xs : List ℚ) : ℚ :=
  ((xs.map fun x => (x - spec_mean xs) ^ 2).sum) / ((xs.length : ℚ) - 1)

/-- Spec wording: the mean of the squared first differences of a sequence.
(The RMSSD of the spec is its square root.) -/
def spec_meanSqSuccDiff (xs : List ℚ) : ℚ :=
  spec_mean (List.zipWith (fun a b => (b - a) ^ 2) xs xs.tail)

/-! ## Concrete instances used by witnesses and counterexamples

Voltage sequences alternate low/high so the peak positions, and hence the
beat times, are immediate from the strict-local-maximum rule. -/

/-- Times whose entries at the peak indices `1,3,5,7,9` of `exV` are the
worked-example beat times `[0, 1, 2, 3, 4]`. -/
def exT : List ℚ := [0, 0, 1, 1, 2, 2, 3, 3, 4, 4, 5]

/-- Voltages with strict local maxima exactly at indices `1,3,5,7,9`. -/
def exV : List ℚ := [0, 1, 0, 1, 0, 1, 0, 1, 0, 1, 0]

/-- The metrics record produced by `analyze_hrv exT exV 0`. -/
def exM : HRVMetrics :=
  { MeanRR := npMean (npDiff (r_peaks_time exT exV 0)),
    SDNN_sq := npStdSq 1 (npDiff (r_peaks_time exT exV 0)),
    RMSSD_sq := npMean ((npDiff (npDiff (r_peaks_time exT exV 0))).map
      fun d => d ^ 2) }

/-- The interval table produced by `analyze_hrv exT exV 0`. -/
def exTbl : List RRRow :=
  (List.range (npDiff (r_peaks_time exT exV 0)).length).map fun i =>
    { timestamp := (r_peaks_time exT exV 0).getD i 0,
      rr := (npDiff (r_peaks_time exT exV 0)).getD i 0 }

/-- Times for a two-peak run (peaks of `witV4` at indices 1 and 3). -/
def witT4 : List ℚ := [0, 1, 2, 3, 4]

/-- Voltages with strict local maxima exactly at indices 1 and 3. -/
def witV4 : List ℚ := [0, 5, 0, 7, 0]

/-- The metrics record produced by `analyze_hrv witT4 witV4 0`. -/
def witM4 : HRVMetrics :=
  { MeanRR := npMean (npDiff (r_peaks_time witT4 witV4 0)),
    SDNN_sq := npStdSq 1 (npDiff (r_peaks_time witT4 witV4 0)),
    RMSSD_sq := npMean ((npDiff (npDiff (r_peaks_time witT4 witV4 0))).map
      fun d => d ^ 2) }

/-- The interval table produced by `analyze_hrv witT4 witV4 0`. -/
def witTbl4 : List RRRow :=
  (List.range (npDiff (r_peaks_time witT4 witV4 0)).length).map fun i =>
    { timestamp := (r_peaks_time witT4 witV4 0).getD i 0,
      rr := (npDiff (r_peaks_time witT4 witV4 0)).getD i 0 }

/-- Times for a three-peak run (peaks of `witV6` at indices 1, 3 and 5). -/
def witT6 : List ℚ := [0, 1, 2, 3, 4, 5, 6]

/-- Voltages with strict local maxima exactly at indices 1, 3 and 5. -/
def witV6 : List ℚ := [0, 4, 0, 4, 0, 4, 0]

/-- The metrics record produced by `analyze_hrv witT6 witV6 0`. -/
def witM6 : HRVMetrics :=
  { MeanRR := npMean (npDiff (r_peaks_time witT6 witV6 0)),
    SDNN_sq := npStdSq 1 (npDiff (r_peaks_time witT6 witV6 0)),
    RMSSD_sq := npMean ((npDiff (npDiff (r_peaks_time witT6 witV6 0))).map
      fun d => d ^ 2) }

/-- The interval table produced by `analyze_hrv witT6 witV6 0`. -/
def witTbl6 : List RRRow :=
  (List.range (npDiff (r_peaks_time witT6 witV6 0)).length).map fun i =>
    { timestamp := (r_peaks_time witT6 witV6 0).getD i 0,
      rr := (npDiff (r_peaks_time witT6 witV6 0)).getD i 0 }

/-! ## Helper lemmas -/

lemma npDiff_length (xs : List ℚ) : (npDiff xs).length = xs.length - 1 := by
  simp only [npDiff, List.length_zipWith, List.length_tail]
  omega

lemma npDiff_cons_cons (a b : ℚ) (t : List ℚ) :
    npDiff (a :: b :: t) = (b - a) :: npDiff (b :: t) := rfl

lemma npDiff_getD (xs : List ℚ) (i : ℕ) (h : i + 1 < xs.length) :
    (npDiff xs).getD i 0 = xs.getD (i + 1) 0 - xs.getD i 0 := by
  induction xs generalizing i with
  | nil => simp at h
  | cons a t ih =>
    match t, i with
    | [], _ => simp at h
    | b :: t', 0 => simp [npDiff_cons_cons]
    | b :: t', i + 1 =>
      rw [npDiff_cons_cons, List.getD_cons_succ, List.getD_cons_succ,
        List.getD_cons_succ]
      exact ih (i := i) (by simpa using h)

lemma pySliceFrom_natCast {α : Type} (s : ℕ) (xs : List α) :
    pySliceFrom (s : ℤ) xs = xs.drop s := by
  simp [pySliceFrom, Int.natCast_nonneg]

lemma pySliceFrom_zero {α : Type} (xs : List α) : pySliceFrom 0 xs = xs := by
  simpa using pySliceFrom_natCast 0 xs

/-- Unfolding lemma for a successful run of `analyze_hrv`. -/
lemma analyze_hrv_of_two_le (times voltages : List ℚ) (s : ℤ)
    (h : 2 ≤ (r_peaks_time times voltages s).length) :
    analyze_hrv times voltages s = .ok
      ({ MeanRR := npMean (npDiff (r_peaks_time times voltages s)),
         SDNN_sq := npStdSq 1 (npDiff (r_peaks_time times voltages s)),
         RMSSD_sq := npMean ((npDiff (npDiff (r_peaks_time times voltages s))).map
           fun d => d ^ 2) },
       (List.range (npDiff (r_peaks_time times voltages s)).length).map fun i =>
         { timestamp := (r_peaks_time times voltages s).getD i 0,
           rr := (npDiff (r_peaks_time times voltages s)).getD i 0 }) := by
  unfold analyze_hrv
  rw [if_neg (by omega)]

/-- Unfolding lemma for a failing run of `analyze_hrv`. -/
lemma analyze_hrv_of_lt_two (times voltages : List ℚ) (s : ℤ)
    (h : (r_peaks_time times voltages s).length < 2) :
    analyze_hrv times voltages s = .error "Not enough R-peaks to compute HRV." := by
  unfold analyze_hrv
  rw [if_pos h]

/-- Inversion: a successful run determines the metrics and the table. -/
lemma analyze_hrv_ok_inv (times voltages : List ℚ) (s : ℤ)
    (m : HRVMetrics) (tbl : List RRRow)
    (h : analyze_hrv times voltages s = .ok (m, tbl)) :
    2 ≤ (r_peaks_time times voltages s).length ∧
    m = { MeanRR := npMean (npDiff (r_peaks_time times voltages s)),
          SDNN_sq := npStdSq 1 (npDiff (r_peaks_time times voltages s)),
          RMSSD_sq := npMean ((npDiff (npDiff (r_peaks_time times voltages s))).map
            fun d => d ^ 2) } ∧
    tbl = (List.range (npDiff (r_peaks_time times voltages s)).length).map fun i =>
      { timestamp := (r_peaks_time times voltages s).getD i 0,
        rr := (npDiff (r_peaks_time times voltages s)).getD i 0 } := by
  by_cases hlen : (r_peaks_time times voltages s).length < 2
  · rw [analyze_hrv_of_lt_two times voltages s hlen] at h
    exact absurd h (by simp)
  · rw [analyze_hrv_of_two_le times voltages s (by omega)] at h
    refine ⟨by omega, ?_, ?_⟩
    · exact ((Prod.mk.injEq _ _ _ _).mp (Except.ok.inj h)).1.symm
    · exact ((Prod.mk.injEq _ _ _ _).mp (Except.ok.inj h)).2.symm

/-- `analyze_hrv` reads its arguments only through `r_peaks_time`. -/
lemma analyze_hrv_congr (t v t' v' : List ℚ) (s s' : ℤ)
    (h : r_peaks_time t v s = r_peaks_time t' v' s') :
    analyze_hrv t v s = analyze_hrv t' v' s' := by
  unfold analyze_hrv
  rw [h]

/-! ## Claim theorems -/

/-- **C1.** For every finite sequence of voltage readings, `detect_peaks`
returns exactly the indices `i` with `1 ≤ i` and `i + 1 < N` (that is,
`i ∈ [1, N-2]`) such that `v[i-1] < v[i]` and `v[i] > v[i+1]` — the strict
local maxima over three consecutive samples — listed in strictly ascending
order. -/
theorem detect_peaks_exact_strict_local_maxima (v : List ℚ) :
    List.Sorted (· < ·) (detect_peaks v) ∧
    ∀ i : ℕ, i ∈ detect_peaks v ↔
      1 ≤ i ∧ i + 1 < v.length ∧
      v.getD (i - 1) 0 < v.getD i 0 ∧ v.getD i 0 > v.getD (i + 1) 0 := by
  constructor
  · exact (List.pairwise_lt_range' 1 (v.length - 1 - 1)).filter _
  · intro i
    rw [detect_peaks, List.mem_filter, List.mem_range'_1, decide_eq_true_eq]
    constructor
    · rintro ⟨⟨h1, h2⟩, h3, h4⟩
      exact ⟨h1, by omega, h3, h4⟩
    · rintro ⟨h1, h2, h3, h4⟩
      exact ⟨⟨h1, by omega⟩, h3, h4⟩

/-- **C7.** For every voltage sequence of length 0, 1, or 2, `detect_peaks`
returns the empty list (and in particular does not fail). -/
theorem detect_peaks_short_input_nil (v : List ℚ) (h : v.length ≤ 2) :
    detect_peaks v = [] := by
  rw [detect_peaks]
  have : v.length - 1 - 1 = 0 := by omega
  rw [this]
  rfl

/-- Witness for C7: the two-sample sequence `[5, 7]` yields no peaks. -/
theorem detect_peaks_short_input_nil_witness :
    ([(5 : ℚ), 7].length ≤ 2) ∧ detect_peaks [(5 : ℚ), 7] = [] :=
  ⟨by decide, detect_peaks_short_input_nil [(5 : ℚ), 7] (by decide)⟩

/-- Counterexample for C3: on an input with no detectable peaks the raised
message is `"Not enough R-peaks to compute HRV."` (with a trailing period),
which differs from the message `"Not enough R-peaks to compute HRV"` stated
by the claim. -/
theorem analyze_hrv_error_message_counterexample :
    analyze_hrv [] [] 0 = .error "Not enough R-peaks to compute HRV." ∧
    analyze_hrv [] [] 0 ≠ .error "Not enough R-peaks to compute HRV" := by
  constructor
  · rfl
  · intro h
    have : "Not enough R-peaks to compute HRV." =
        "Not enough R-peaks to compute HRV" := Except.error.inj h
    simp at this

/-- **C3 (amended).** Whenever peak detection on the offset-truncated input
yields fewer than 2 beat times, `analyze_hrv` fails with a `ValueError`
whose message is `"Not enough R-peaks to compute HRV."` (trailing period),
and — the result being `Except.error` — no metrics record and no interval
table are produced. -/
theorem analyze_hrv_insufficient_peaks_error (t v : List ℚ) (s : ℤ)
    (h : (r_peaks_time t v s).length < 2) :
    analyze_hrv t v s = .error "Not enough R-peaks to compute HRV." :=
  analyze_hrv_of_lt_two t v s h

/-- Witness for C3: three samples with a single peak give one beat time,
hence the failure. -/
theorem analyze_hrv_insufficient_peaks_error_witness :
    (r_peaks_time [0, 1, 2] [0, 5, 0] 0).length < 2 ∧
    analyze_hrv [0, 1, 2] [0, 5, 0] 0 =
      .error "Not enough R-peaks to compute HRV." :=
  ⟨by decide, analyze_hrv_insufficient_peaks_error [0, 1, 2] [0, 5, 0] 0 (by decide)⟩

/-- Counterexample for C9: with the offset `5` past the end of a 2-sample
input, `analyze_hrv` fails with the message carrying a trailing period, not
with the exact message string stated by the claim. -/
theorem analyze_hrv_offset_past_end_counterexample :
    analyze_hrv [1, 2] [10, 20] 5 = .error "Not enough R-peaks to compute HRV." ∧
    analyze_hrv [1, 2] [10, 20] 5 ≠ .error "Not enough R-peaks to compute HRV" := by
  constructor
  · rfl
  · intro h
    have : "Not enough R-peaks to compute HRV." =
        "Not enough R-peaks to compute HRV" := Except.error.inj h
    simp at this

/-- **C9 (amended).** For every start offset at least the length of the
sample sequence, `analyze_hrv` does not fail with an index-out-of-range
error: the truncated sequences are empty, peak detection returns no beat
times, and the call fails with the same `ValueError`
`"Not enough R-peaks to compute HRV."` as the insufficient-data case. -/
theorem analyze_hrv_offset_past_end (t v : List ℚ) (s : ℤ)
    (_hlen : t.length = v.length) (hs : (v.length : ℤ) ≤ s) :
    r_peaks_time t v s = [] ∧
    analyze_hrv t v s = .error "Not enough R-peaks to compute HRV." := by
  have hv : pySliceFrom s v = [] := by
    rw [pySliceFrom, if_pos (le_trans (Int.natCast_nonneg _) hs)]
    exact List.drop_eq_nil_of_le (by omega)
  have hr : r_peaks_time t v s = [] := by
    rw [r_peaks_time, hv]
    rfl
  exact ⟨hr, analyze_hrv_of_lt_two t v s (by rw [hr]; decide)⟩

/-- Witness for C9: offset 3 on a 3-sample input (which would yield a peak
at offset 0) produces the insufficient-data failure. -/
theorem analyze_hrv_offset_past_end_witness :
    ([(3 : ℚ), 4, 5].length = [(0 : ℚ), 9, 0].length) ∧
    ((([(0 : ℚ), 9, 0].length : ℤ)) ≤ 3) ∧
    r_peaks_time [3, 4, 5] [0, 9, 0] 3 = [] ∧
    analyze_hrv [3, 4, 5] [0, 9, 0] 3 =
      .error "Not enough R-peaks to compute HRV." :=
  ⟨by decide, by decide,
    analyze_hrv_offset_past_end [3, 4, 5] [0, 9, 0] 3 (by decide) (by decide)⟩

/-- **C4.** On every successful run, the interval table has exactly
`k - 1` rows for `k` detected beat times, and row `i` pairs the *earlier*
beat time `beat_times[i]` with the in-order difference
`beat_times[i+1] - beat_times[i]`. -/
theorem analyze_hrv_interval_table (t v : List ℚ) (s : ℤ)
    (m : HRVMetrics) (tbl : List RRRow)
    (h : analyze_hrv t v s = .ok (m, tbl)) :
    tbl.length = (r_peaks_time t v s).length - 1 ∧
    tbl = (List.range ((r_peaks_time t v s).length - 1)).map fun i =>
      { timestamp := (r_peaks_time t v s).getD i 0,
        rr := (r_peaks_time t v s).getD (i + 1) 0 - (r_peaks_time t v s).getD i 0 } := by
  obtain ⟨-, -, htbl⟩ := analyze_hrv_ok_inv t v s m tbl h
  constructor
  · rw [htbl]
    simp [npDiff_length]
  · rw [htbl, npDiff_length]
    refine List.map_congr_left fun i hi => ?_
    rw [List.mem_range] at hi
    rw [npDiff_getD _ _ (by omega)]

/-- Witness for C4: a run with beat times `[1, 3]` produces the one-row
table `[{timestamp := 1, rr := 3 - 1}]`. -/
theorem analyze_hrv_interval_table_witness :
    analyze_hrv witT4 witV4 0 = .ok (witM4, witTbl4) ∧
    witTbl4.length = (r_peaks_time witT4 witV4 0).length - 1 ∧
    witTbl4 = (List.range ((r_peaks_time witT4 witV4 0).length - 1)).map fun i =>
      { timestamp := (r_peaks_time witT4 witV4 0).getD i 0,
        rr := (r_peaks_time witT4 witV4 0).getD (i + 1) 0 -
          (r_peaks_time witT4 witV4 0).getD i 0 } :=
  have h : analyze_hrv witT4 witV4 0 = .ok (witM4, witTbl4) :=
    analyze_hrv_of_two_le witT4 witV4 0 (by decide)
  ⟨h, analyze_hrv_interval_table witT4 witV4 0 witM4 witTbl4 h⟩

/-- Counterexample for C6: a run with three beat times (`[1, 3, 5]`, so
`len(RR) = 2`) produces an interval table with 2 rows, not the
`len(RR) - 1 = 1` rows stated by the claim. -/
theorem rr_table_row_count_counterexample :
    analyze_hrv witT6 witV6 0 = .ok (witM6, witTbl6) ∧
    witTbl6.length = 2 ∧
    (npDiff (r_peaks_time witT6 witV6 0)).length - 1 = 1 ∧
    witTbl6.length ≠ (npDiff (r_peaks_time witT6 witV6 0)).length - 1 := by
  refine ⟨analyze_hrv_of_two_le witT6 witV6 0 (by decide), by decide, by decide, by decide⟩

/-- **C6 (amended).** The interval table is built by recording
`{timestamp := beat_times[k], rr := RR[k]}` for each index `k` in the
half-open range `[0, len(RR))`; i.e. the table has `len(RR)` entries. -/
theorem rr_table_rows_match_rr (t v : List ℚ) (s : ℤ)
    (m : HRVMetrics) (tbl : List RRRow)
    (h : analyze_hrv t v s = .ok (m, tbl)) :
    tbl.length = (npDiff (r_peaks_time t v s)).length ∧
    tbl = (List.range (npDiff (r_peaks_time t v s)).length).map fun k =>
      { timestamp := (r_peaks_time t v s).getD k 0,
        rr := (npDiff (r_peaks_time t v s)).getD k 0 } := by
  obtain ⟨-, -, htbl⟩ := analyze_hrv_ok_inv t v s m tbl h
  exact ⟨by rw [htbl]; simp, htbl⟩

/-- Witness for C6 (amended): the three-beat run has a table with
`len(RR) = 2` rows built from the beat times and RR values. -/
theorem rr_table_rows_match_rr_witness :
    analyze_hrv witT6 witV6 0 = .ok (witM6, witTbl6) ∧
    witTbl6.length = (npDiff (r_peaks_time witT6 witV6 0)).length ∧
    witTbl6 = (List.range (npDiff (r_peaks_time witT6 witV6 0)).length).map fun k =>
      { timestamp := (r_peaks_time witT6 witV6 0).getD k 0,
        rr := (npDiff (r_peaks_time witT6 witV6 0)).getD k 0 } :=
  have h : analyze_hrv witT6 witV6 0 = .ok (witM6, witTbl6) :=
    analyze_hrv_of_two_le witT6 witV6 0 (by decide)
  ⟨h, rr_table_rows_match_rr witT6 witV6 0 witM6 witTbl6 h⟩

/-- **C5.** Calling `analyze_hrv` with a non-negative start offset `s`
equals calling it with offset 0 on the input pre-sliced to drop the first
`s` samples: the peak indices, the beat times, and the whole result
(interval table and metrics) are identical, so no sample before the offset
influences any computed value. -/
theorem analyze_hrv_offset_pre_slice (t v : List ℚ) (s : ℕ)
    (_h2 : 2 ≤ (r_peaks_time t v (s : ℤ)).length) :
    detect_peaks (pySliceFrom (s : ℤ) v) = detect_peaks (v.drop s) ∧
    r_peaks_time t v (s : ℤ) = r_peaks_time (t.drop s) (v.drop s) 0 ∧
    analyze_hrv t v (s : ℤ) = analyze_hrv (t.drop s) (v.drop s) 0 := by
  have hr : r_peaks_time t v (s : ℤ) = r_peaks_time (t.drop s) (v.drop s) 0 := by
    rw [r_peaks_time, r_peaks_time, pySliceFrom_natCast, pySliceFrom_natCast,
      pySliceFrom_zero, pySliceFrom_zero]
  exact ⟨by rw [pySliceFrom_natCast], hr, analyze_hrv_congr _ _ _ _ _ _ hr⟩

/-- Witness for C5: offset 1 into a 6-sample recording, which yields the
two beat times `[2, 4]`. -/
theorem analyze_hrv_offset_pre_slice_witness :
    2 ≤ (r_peaks_time [0, 1, 2, 3, 4, 5] [9, 0, 1, 0, 1, 0] ((1 : ℕ) : ℤ)).length ∧
    (detect_peaks (pySliceFrom ((1 : ℕ) : ℤ) [9, 0, 1, 0, 1, 0]) =
        detect_peaks (List.drop 1 [9, 0, 1, 0, 1, 0]) ∧
      r_peaks_time [0, 1, 2, 3, 4, 5] [9, 0, 1, 0, 1, 0] ((1 : ℕ) : ℤ) =
        r_peaks_time (List.drop 1 [0, 1, 2, 3, 4, 5]) (List.drop 1 [9, 0, 1, 0, 1, 0]) 0 ∧
      analyze_hrv [0, 1, 2, 3, 4, 5] [9, 0, 1, 0, 1, 0] ((1 : ℕ) : ℤ) =
        analyze_hrv (List.drop 1 [0, 1, 2, 3, 4, 5]) (List.drop 1 [9, 0, 1, 0, 1, 0]) 0) :=
  ⟨by decide,
    analyze_hrv_offset_pre_slice [0, 1, 2, 3, 4, 5] [9, 0, 1, 0, 1, 0] 1 (by decide)⟩

/-- **C8.** On every input yielding exactly 2 beat times, `analyze_hrv`
does not raise the insufficient-data failure: it succeeds with `MeanRR`
equal to the single RR value, while SDNN and RMSSD are NaN (`none` — the
Bessel divisor is `N - 1 = 0` and the second-difference sequence is empty,
and `np.sqrt` propagates the NaN radicands). -/
theorem analyze_hrv_two_beats_nan (t v : List ℚ) (s : ℤ)
    (h : (r_peaks_time t v s).length = 2) :
    analyze_hrv t v s = .ok
      ({ MeanRR := some ((r_peaks_time t v s).getD 1 0 - (r_peaks_time t v s).getD 0 0),
         SDNN_sq := none,
         RMSSD_sq := none },
       [{ timestamp := (r_peaks_time t v s).getD 0 0,
          rr := (r_peaks_time t v s).getD 1 0 - (r_peaks_time t v s).getD 0 0 }]) := by
  obtain ⟨a, b, hab⟩ := List.length_eq_two.mp h
  rw [analyze_hrv_of_two_le t v s (by omega), hab]
  simp [npDiff, npMean, npStdSq, List.range_succ]

/-- Witness for C8: a run with exactly the two beat times `[1, 3]`. -/
theorem analyze_hrv_two_beats_nan_witness :
    (r_peaks_time [0, 1, 2, 3, 4] [0, 6, 0, 6, 0] 0).length = 2 ∧
    analyze_hrv [0, 1, 2, 3, 4] [0, 6, 0, 6, 0] 0 = .ok
      ({ MeanRR := some ((r_peaks_time [0, 1, 2, 3, 4] [0, 6, 0, 6, 0] 0).getD 1 0 -
           (r_peaks_time [0, 1, 2, 3, 4] [0, 6, 0, 6, 0] 0).getD 0 0),
         SDNN_sq := none,
         RMSSD_sq := none },
       [{ timestamp := (r_peaks_time [0, 1, 2, 3, 4] [0, 6, 0, 6, 0] 0).getD 0 0,
          rr := (r_peaks_time [0, 1, 2, 3, 4] [0, 6, 0, 6, 0] 0).getD 1 0 -
            (r_peaks_time [0, 1, 2, 3, 4] [0, 6, 0, 6, 0] 0).getD 0 0 }]) :=
  ⟨by decide, analyze_hrv_two_beats_nan [0, 1, 2, 3, 4] [0, 6, 0, 6, 0] 0 (by decide)⟩

/-- **C10.** For every negative start offset `s` with `|s|` not exceeding
the sequence length, `analyze_hrv` does not reject the offset: Python
slice semantics make it analyze exactly the last `|s|` samples, as if the
offset were `length - |s|`. -/
theorem analyze_hrv_negative_offset (t v : List ℚ) (s : ℤ)
    (hneg : s < 0) (hbound : -s ≤ (v.length : ℤ)) (hlen : t.length = v.length) :
    (pySliceFrom s v).length = (-s).toNat ∧
    pySliceFrom s v = v.drop (v.length - (-s).toNat) ∧
    pySliceFrom s t = t.drop (t.length - (-s).toNat) ∧
    analyze_hrv t v s = analyze_hrv t v ((v.length : ℤ) + s) := by
  have hv : pySliceFrom s v = v.drop ((v.length : ℤ) + s).toNat := by
    rw [pySliceFrom, if_neg (by omega)]
  have ht : pySliceFrom s t = t.drop ((t.length : ℤ) + s).toNat := by
    rw [pySliceFrom, if_neg (by omega)]
  have hvn : ((v.length : ℤ) + s).toNat = v.length - (-s).toNat := by omega
  have htn : ((t.length : ℤ) + s).toNat = t.length - (-s).toNat := by omega
  refine ⟨?_, ?_, ?_, ?_⟩
  · rw [hv, List.length_drop]
    omega
  · rw [hv, hvn]
  · rw [ht, htn]
  · refine analyze_hrv_congr _ _ _ _ _ _ ?_
    have hv2 : pySliceFrom ((v.length : ℤ) + s) v = v.drop ((v.length : ℤ) + s).toNat := by
      rw [pySliceFrom, if_pos (by omega)]
    have ht2 : pySliceFrom ((v.length : ℤ) + s) t = t.drop ((v.length : ℤ) + s).toNat := by
      rw [pySliceFrom, if_pos (by omega)]
    rw [r_peaks_time, r_peaks_time, hv, ht, hv2, ht2, hlen]

/-- Witness for C10: offset `-2` on a 3-sample input analyzes the last two
samples, as offset `3 + (-2) = 1` would. -/
theorem analyze_hrv_negative_offset_witness :
    ((-2 : ℤ) < 0) ∧
    (-(-2 : ℤ) ≤ (([(5 : ℚ), 6, 7].length : ℤ))) ∧
    ([(0 : ℚ), 1, 2].length = [(5 : ℚ), 6, 7].length) ∧
    ((pySliceFrom (-2) [(5 : ℚ), 6, 7]).length = (-(-2 : ℤ)).toNat ∧
      pySliceFrom (-2) [(5 : ℚ), 6, 7] =
        List.drop ([(5 : ℚ), 6, 7].length - (-(-2 : ℤ)).toNat) [(5 : ℚ), 6, 7] ∧
      pySliceFrom (-2) [(0 : ℚ), 1, 2] =
        List.drop ([(0 : ℚ), 1, 2].length - (-(-2 : ℤ)).toNat) [(0 : ℚ), 1, 2] ∧
      analyze_hrv [0, 1, 2] [5, 6, 7] (-2) =
        analyze_hrv [0, 1, 2] [5, 6, 7] ((([(5 : ℚ), 6, 7].length : ℤ)) + (-2))) :=
  ⟨by decide, by decide, by decide,
    analyze_hrv_negative_offset [0, 1, 2] [5, 6, 7] (-2) (by decide) (by decide) (by decide)⟩

/-- **C2.** On every successful run whose RR sequence has at least 2
entries, the metrics satisfy the spec formulas: `MeanRR` is the arithmetic
mean of RR, the SDNN radicand is the Bessel-corrected sample variance of
RR (so SDNN is the sample standard deviation), and the RMSSD radicand is
the mean of the squared first differences of RR (so RMSSD is its square
root); in particular the worked example with beat times `[0, 1, 2, 3, 4]`
(RR = `[1, 1, 1, 1]`) yields `MeanRR = 1`, `SDNN = 0`, `RMSSD = 0`. -/
theorem analyze_hrv_metrics_formulas (t v : List ℚ) (s : ℤ)
    (m : HRVMetrics) (tbl : List RRRow)
    (h : analyze_hrv t v s = .ok (m, tbl))
    (hrr : 2 ≤ (npDiff (r_peaks_time t v s)).length) :
    m.MeanRR = some (spec_mean (npDiff (r_peaks_time t v s))) ∧
    m.SDNN_sq = some (spec_sampleVariance (npDiff (r_peaks_time t v s))) ∧
    m.RMSSD_sq = some (spec_meanSqSuccDiff (npDiff (r_peaks_time t v s))) ∧
    analyze_hrv exT exV 0 = .ok
      ({ MeanRR := some 1, SDNN_sq := some 0, RMSSD_sq := some 0 },
       [{ timestamp := 0, rr := 1 }, { timestamp := 1, rr := 1 },
        { timestamp := 2, rr := 1 }, { timestamp := 3, rr := 1 }]) := by
  obtain ⟨-, hm, -⟩ := analyze_hrv_ok_inv t v s m tbl h
  subst hm
  refine ⟨?_, ?_, ?_, ?_⟩
  · dsimp only
    rw [npMean, if_neg (by omega)]
    rfl
  · dsimp only
    rw [npStdSq, if_neg (by omega)]
    simp [spec_sampleVariance, spec_mean]
  · dsimp only
    have hLM : (npDiff (npDiff (r_peaks_time t v s))).map (fun d => d ^ 2) =
        List.zipWith (fun a b => (b - a) ^ 2) (npDiff (r_peaks_time t v s))
          (npDiff (r_peaks_time t v s)).tail := by
      rw [npDiff, List.map_zipWith]
    rw [hLM, npMean, if_neg (by simp [List.length_zipWith]; omega)]
    rfl
  · have hbt : r_peaks_time exT exV 0 = [0, 1, 2, 3, 4] := by decide
    have hd1 : npDiff [(0 : ℚ), 1, 2, 3, 4] = [1, 1, 1, 1] := by norm_num [npDiff]
    have hd2 : npDiff [(1 : ℚ), 1, 1, 1] = [0, 0, 0] := by norm_num [npDiff]
    rw [analyze_hrv_of_two_le exT exV 0 (by decide), hbt, hd1, hd2]
    norm_num [npMean, npStdSq, List.range_succ]

/-- Witness for C2: the worked-example input whose beat times are
`[0, 1, 2, 3, 4]`. -/
theorem analyze_hrv_metrics_formulas_witness :
    analyze_hrv exT exV 0 = .ok (exM, exTbl) ∧
    2 ≤ (npDiff (r_peaks_time exT exV 0)).length ∧
    (exM.MeanRR = some (spec_mean (npDiff (r_peaks_time exT exV 0))) ∧
      exM.SDNN_sq = some (spec_sampleVariance (npDiff (r_peaks_time exT exV 0))) ∧
      exM.RMSSD_sq = some (spec_meanSqSuccDiff (npDiff (r_peaks_time exT exV 0))) ∧
      analyze_hrv exT exV 0 = .ok
        ({ MeanRR := some 1, SDNN_sq := some 0, RMSSD_sq := some 0 },
         [{ timestamp := 0, rr := 1 }, { timestamp := 1, rr := 1 },
          { timestamp := 2, rr := 1 }, { timestamp := 3, rr := 1 }])) :=
  have h : analyze_hrv exT exV 0 = .ok (exM, exTbl) :=
    analyze_hrv_of_two_le exT exV 0 (by decide)
  ⟨h, by decide, analyze_hrv_metrics_formulas exT exV 0 exM exTbl h (by decide)⟩
